import Mathlib

/-!
# Verification of the order-lifecycle and time-gated availability engine

Shallow embedding of the core subsystem of a Go food-delivery backend:
the order/refund status-transition tables, the restaurant open/close
time-window evaluators, the time-based product availability check, the
scheduler page loop, and the Porter webhook / delivery-reassignment flow.

Modelling conventions:
* Go `map[string]interface{}` (the `models.JSONB` type) is embedded as an
  association list of string keys to a `JsonVal` sum type; a nil map is
  `Option.none`.  Go's comma-ok type assertions (`v, _ := x.(bool)`)
  become total projections that default to `false` / `""` on a missing
  key or a wrong-typed value, exactly as in Go.
* `time.Time` values are only ever consumed through `Weekday().String()`
  and `Format("15:04")`, so an instant is embedded as a weekday together
  with the formatted `HH:MM` string.
* Go string comparison (`<`, `<=`) is byte-lexicographic; it is embedded
  as `goStrLt`/`goStrLe` below, lexicographic comparison of the
  character lists (identical to byte order on the ASCII strings the
  code compares).
* UUIDs are embedded as `Nat` identifiers; string/UUID parsing at the
  edges is not modelled (an unparsable id errors out before any logic
  runs and touches no state).
* Repositories are embedded as lookup functions / row lists; external
  I/O (Kafka events, log output, the Porter HTTP client) is recorded in
  the result where a claim is about it and dropped where it is not.
-/

/-- Lexicographic order on character lists, comparing code points. -/
def charListLt : List Char → List Char → Bool
  | [], [] => false
  | [], _ :: _ => true
  | _ :: _, [] => false
  | a :: as, b :: bs =>
    if a.toNat < b.toNat then true
    else if b.toNat < a.toNat then false
    else charListLt as bs

/-- Go `a < b` on strings: byte-lexicographic comparison. -/
def goStrLt (a b : String) : Bool := charListLt a.data b.data

/-- Go `a <= b` on strings (equivalently `!(b < a)` for the total
lexicographic order). -/
def goStrLe (a b : String) : Bool := !(goStrLt b a)

/-- A JSON value as stored in a `models.JSONB` Go map.  Only the
constructors that the embedded code inspects are distinguished; every
other shape is `other` (a Go type assertion on it fails). -/
inductive JsonVal : Type
  | bool (b : Bool)
  | str (s : String)
  | obj (fields : List (String × JsonVal))
  | other
  deriving Repr

/-- Go `m[k].(bool)` with the comma-ok pattern: `false` when the key is
absent or the value is not a bool. -/
def JsonVal.asBool : Option JsonVal → Bool
  | some (.bool b) => b
  | _ => false

/-- Go `m[k].(string)` with the comma-ok pattern: `""` when the key is
absent or the value is not a string. -/
def JsonVal.asStr : Option JsonVal → String
  | some (.str s) => s
  | _ => ""

/-- Days of the week, as produced by Go's `time.Weekday`. -/
inductive Weekday : Type
  | sunday | monday | tuesday | wednesday | thursday | friday | saturday
  deriving Repr, DecidableEq

/-- Go `checkTime.Weekday().String()` — capitalized English day name. -/
def Weekday.goString : Weekday → String
  | .sunday => "Sunday"
  | .monday => "Monday"
  | .tuesday => "Tuesday"
  | .wednesday => "Wednesday"
  | .thursday => "Thursday"
  | .friday => "Friday"
  | .saturday => "Saturday"

/-- Go `strings.ToLower(checkTime.Weekday().String())`. -/
def Weekday.lowerString : Weekday → String
  | .sunday => "sunday"
  | .monday => "monday"
  | .tuesday => "tuesday"
  | .wednesday => "wednesday"
  | .thursday => "thursday"
  | .friday => "friday"
  | .saturday => "saturday"

/-- An instant, reduced to the two projections of `time.Time` the code
uses: the weekday and the zero-padded `HH:MM` string from
`Format("15:04")`. -/
structure CheckTime : Type where
  weekday : Weekday
  hhmm : String
  deriving Repr, DecidableEq

/-- The `models.Restaurant` fields read by the embedded services.
`openingHours` is the JSONB map (`none` = nil map). -/
structure Restaurant : Type where
  id : Nat
  name : String
  status : String
  isOpen : Bool
  autoOpenClose : Bool
  openingHours : Option (List (String × JsonVal))
  lastStatusUpdate : Option Nat
  deriving Repr

namespace EnhancedCronService

/-- `shouldRestaurantBeOpenAtTime` from
`internal/services/enhanced_cron_service.go`: the scheduler's evaluator
of whether a restaurant should be open at `checkTime`. -/
def shouldRestaurantBeOpenAtTime (restaurant : Restaurant) (checkTime : CheckTime) : Bool :=
  if !restaurant.autoOpenClose then
    restaurant.isOpen
  else
    match restaurant.openingHours with
    | none => false
    | some openingHours =>
      let currentDay := checkTime.weekday.lowerString
      let currentTimeStr := checkTime.hhmm
      match openingHours.lookup currentDay with
      | none => false
      | some dayTiming =>
        match dayTiming with
        | .obj dayTimingMap =>
          let isOpenToday := JsonVal.asBool (dayTimingMap.lookup "is_open")
          if !isOpenToday then false
          else
            let openTimeStr := JsonVal.asStr (dayTimingMap.lookup "open_time")
            let closeTimeStr := JsonVal.asStr (dayTimingMap.lookup "close_time")
            if openTimeStr = "" || closeTimeStr = "" then false
            else if goStrLt closeTimeStr openTimeStr then
              goStrLe openTimeStr currentTimeStr || goStrLe currentTimeStr closeTimeStr
            else
              goStrLe openTimeStr currentTimeStr && goStrLe currentTimeStr closeTimeStr
        | _ => false

end EnhancedCronService

namespace ShopTimeService

/-- `isRestaurantOpenAtTime` from `internal/services/razorpay_service.go`:
the shop-timing evaluator used by the time-based product listing.  Note
that it looks the day up under the capitalized Go weekday name, falls
back to the manual `isOpen` flag on a nil map or empty time strings, and
compares the time against `[openTime, closeTime]` with no overnight
branch. -/
def isRestaurantOpenAtTime (restaurant : Restaurant) (checkTime : CheckTime) : Bool :=
  if !restaurant.autoOpenClose then
    restaurant.isOpen
  else
    let currentDay := checkTime.weekday.goString
    let currentTimeStr := checkTime.hhmm
    match restaurant.openingHours with
    | none => restaurant.isOpen
    | some openingHours =>
      match openingHours.lookup currentDay with
      | none => false
      | some dayTiming =>
        match dayTiming with
        | .obj dayTimingMap =>
          if !JsonVal.asBool (dayTimingMap.lookup "is_open") then false
          else
            let openTime := JsonVal.asStr (dayTimingMap.lookup "open_time")
            let closeTime := JsonVal.asStr (dayTimingMap.lookup "close_time")
            if openTime = "" || closeTime = "" then restaurant.isOpen
            else goStrLe openTime currentTimeStr && goStrLe currentTimeStr closeTime
        | _ => false

end ShopTimeService

/-- The open/closed rule exactly as §4.2 step 3 of the spec words it, for
refinement comparison with the evaluators embedded from the source: if
`close_time < open_time` lexically the window is overnight and the
restaurant is open iff `time >= open_time OR time <= close_time`,
otherwise iff `open_time <= time <= close_time`. -/
def specOpenRule (openTime closeTime t : String) : Bool :=
  if goStrLt closeTime openTime then
    goStrLe openTime t || goStrLe t closeTime
  else
    goStrLe openTime t && goStrLe t closeTime

/-- The `models.Product` fields read by the time-based product service. -/
structure Product : Type where
  id : Nat
  name : String
  isAvailable : Bool
  deriving Repr, DecidableEq

/-- `models.TimeRangeProductsGroup`: a named recurring `HH:MM` window. -/
structure TimeRangeProductsGroup : Type where
  restaurantId : Nat
  groupName : String
  startTime : String
  endTime : String
  isActive : Bool
  deriving Repr, DecidableEq

namespace TimeBasedProductService

/-- `isTimeInRange` from `internal/services/time_based_product_service.go`:
window membership with the overnight rule. -/
def isTimeInRange (checkTime startTime endTime : String) : Bool :=
  if goStrLt endTime startTime then
    goStrLe startTime checkTime || goStrLe checkTime endTime
  else
    goStrLe startTime checkTime && goStrLe checkTime endTime

/-- `isProductAvailable` from
`internal/services/time_based_product_service.go`: whether `product` is
purchasable at `targetTime` given the time groups it belongs to and
whether the restaurant is open.  (`targetTime.hhmm` is the Go
`targetTime.Format("15:04")` string.) -/
def isProductAvailable (product : Product) (timeGroups : List TimeRangeProductsGroup)
    (targetTime : CheckTime) (restaurantIsOpen : Bool) : Bool :=
  if !restaurantIsOpen then false
  else if !product.isAvailable then false
  else if timeGroups.isEmpty then true
  else
    let targetTimeStr := targetTime.hhmm
    timeGroups.any fun group =>
      group.isActive && isTimeInRange targetTimeStr group.startTime group.endTime

/-- `getUnavailabilityReason` from
`internal/services/time_based_product_service.go`. -/
def getUnavailabilityReason (product : Product) (timeGroups : List TimeRangeProductsGroup)
    (restaurantIsOpen : Bool) : String :=
  if !restaurantIsOpen then "Restaurant is closed"
  else if !product.isAvailable then "Product is currently unavailable"
  else if timeGroups.length > 0 then "Product not available at this time"
  else "Unknown reason"

end TimeBasedProductService

/-- One entry of an order's append-only `order_logs` list.  In Go the
list lives under the `"logs"` key of a JSONB map as
`{timestamp, status, note}` objects; it is embedded directly as a list
of records. -/
structure OrderLog : Type where
  timestamp : Nat
  status : String
  note : String
  deriving Repr, DecidableEq

/-- The `models.Order` fields read and written by the embedded services. -/
structure Order : Type where
  id : Nat
  userId : Nat
  restaurantId : Nat
  orderStatus : String
  orderLogs : List OrderLog
  deriving Repr, DecidableEq

/-- An order store: the persisted orders keyed by id (the
`OrderRepository` lookup). -/
def OrderStore : Type := Nat → Option Order

namespace OrderService

/-- `isValidStatusTransition` from `internal/services/order_service.go`:
the order status table.  The Go map literal is embedded as an
association-list lookup with the same keys. -/
def isValidStatusTransition (currentStatus newStatus : String) : Bool :=
  let validTransitions : List (String × List String) :=
    [("pending", ["confirmed", "cancelled"]),
     ("confirmed", ["preparing", "cancelled"]),
     ("preparing", ["dispatched", "cancelled"]),
     ("dispatched", ["delivered", "cancelled"]),
     ("delivered", []),
     ("cancelled", [])]
  match validTransitions.lookup currentStatus with
  | none => false
  | some allowedStatuses => allowedStatuses.contains newStatus

/-- `UpdateOrderStatus` from `internal/services/order_service.go` as a
state transformer on the order store.  `now` is the `time.Now()`
timestamp of the appended log entry.  The Kafka events emitted after a
successful repository update are external I/O and are not part of the
persisted state.  Returns the result together with the store after the
call. -/
def updateOrderStatus (store : OrderStore) (orderID : Nat) (newStatus : String)
    (restaurantID : Nat) (now : Nat) : Except String Unit × OrderStore :=
  match store orderID with
  | none => (.error "order not found", store)
  | some order =>
    if order.restaurantId ≠ restaurantID then
      (.error "order does not belong to this restaurant", store)
    else if !isValidStatusTransition order.orderStatus newStatus then
      (.error "invalid status transition", store)
    else
      let logEntry : OrderLog :=
        { timestamp := now, status := newStatus, note := "Status updated to " ++ newStatus }
      let order' := { order with
        orderStatus := newStatus
        orderLogs := order.orderLogs ++ [logEntry] }
      (.ok (), fun i => if i = orderID then some order' else store i)

end OrderService

/-- The `models.Refund` fields read and written by the refund service. -/
structure Refund : Type where
  id : Nat
  orderId : Nat
  amount : Nat
  status : String
  adminComment : Option String
  deriving Repr, DecidableEq

/-- A refund store: the persisted refunds keyed by id. -/
def RefundStore : Type := Nat → Option Refund

namespace RefundService

/-- `isValidStatusTransition` from `internal/services/refund_service.go`:
the refund status table. -/
def isValidStatusTransition (currentStatus newStatus : String) : Bool :=
  let validTransitions : List (String × List String) :=
    [("pending", ["approved", "rejected"]),
     ("approved", ["processed", "failed"]),
     ("rejected", []),
     ("processed", []),
     ("failed", ["approved"])]
  match validTransitions.lookup currentStatus with
  | none => false
  | some allowedStatuses => allowedStatuses.contains newStatus

/-- `UpdateRefundStatus` from `internal/services/refund_service.go` as a
state transformer on the refund store.  Returns the result (the updated
refund on success) together with the store after the call. -/
def updateRefundStatus (store : RefundStore) (refundID : Nat) (reqStatus : String)
    (reqAdminComment : String) : Except String Refund × RefundStore :=
  match store refundID with
  | none => (.error "refund not found", store)
  | some refund =>
    if !isValidStatusTransition refund.status reqStatus then
      (.error "invalid status transition", store)
    else
      let refund' :=
        { refund with
          status := reqStatus
          adminComment :=
            if reqAdminComment ≠ "" then some reqAdminComment else refund.adminComment }
      (.ok refund', fun i => if i = refundID then some refund' else store i)

end RefundService

namespace EnhancedCronService

/-- `updateRestaurantStatus` from
`internal/services/enhanced_cron_service.go`: recompute one restaurant's
status; on a change, persist the flip and stamp `lastStatusUpdate`.
`updateFails` models the repository write failing (`PersistenceFailure`).
Returns `some` of the persisted restaurant when a write happened, `none`
when the status was already correct (no write). -/
def updateRestaurantStatus (restaurant : Restaurant) (checkTime : CheckTime) (now : Nat)
    (updateFails : Bool) : Except String (Option Restaurant) :=
  let shouldBeOpen := shouldRestaurantBeOpenAtTime restaurant checkTime
  let statusChanged := restaurant.isOpen ≠ shouldBeOpen
  if statusChanged then
    let restaurant' := { restaurant with isOpen := shouldBeOpen, lastStatusUpdate := some now }
    if updateFails then .error "failed to update restaurant status"
    else .ok (some restaurant')
  else .ok none

/-- Result of one page of the scheduler tick (`updateAllRestaurantStatuses`
loop body): the writes persisted in order, the ids whose write failed and
was logged, and the `totalUpdated`/`totalErrors` counters. -/
structure PageResult : Type where
  writes : List Restaurant
  loggedErrors : List Nat
  totalUpdated : Nat
  totalErrors : Nat
  deriving Repr

/-- The per-page loop of `updateAllRestaurantStatuses` from
`internal/services/enhanced_cron_service.go`: each restaurant is
evaluated in turn; an error from `updateRestaurantStatus` is logged and
counted, and the loop continues with the next restaurant.  `fails`
tells, per restaurant id, whether the repository write fails. -/
def updateAllRestaurantStatusesPage : List Restaurant → (Nat → Bool) → CheckTime → Nat →
    PageResult
  | [], _, _, _ => ⟨[], [], 0, 0⟩
  | restaurant :: rest, fails, checkTime, now =>
    let tail := updateAllRestaurantStatusesPage rest fails checkTime now
    match updateRestaurantStatus restaurant checkTime now (fails restaurant.id) with
    | .error _ =>
      ⟨tail.writes, restaurant.id :: tail.loggedErrors, tail.totalUpdated, tail.totalErrors + 1⟩
    | .ok none =>
      ⟨tail.writes, tail.loggedErrors, tail.totalUpdated + 1, tail.totalErrors⟩
    | .ok (some restaurant') =>
      ⟨restaurant' :: tail.writes, tail.loggedErrors, tail.totalUpdated + 1, tail.totalErrors⟩

end EnhancedCronService

/-- The `models.PorterDelivery` fields read and written by the embedded
services.  `rowId` is the table's primary key (repository `Update` is
keyed on it); `porterOrderID` is the carrier's order id. -/
structure PorterDelivery : Type where
  rowId : Nat
  orderId : Nat
  porterOrderID : String
  status : String
  isActive : Bool
  partnerName : String
  partnerPhoneNumber : String
  vehicleNumber : String
  estimatedDeliveryTime : Option Int
  pickupTime : Option Nat
  actualDeliveryTime : Option Nat
  updatedAt : Nat
  deriving Repr, DecidableEq

/-- The driver details of a Porter webhook's `order_details`. -/
structure PorterDriverDetails : Type where
  driverName : String
  mobile : String
  vehicleNumber : String
  deriving Repr, DecidableEq

/-- `services.PorterWebhookPayload`: the inbound carrier webhook body. -/
structure PorterWebhookPayload : Type where
  orderID : String
  status : String
  driverDetails : PorterDriverDetails
  eventTs : Int
  deriving Repr, DecidableEq

/-- The persisted state the Porter flow reads and writes: the
`porter_deliveries` table and the order store. -/
structure PorterState : Type where
  rows : List PorterDelivery
  orders : OrderStore

/-- `porterDeliveryRepository.GetByPorterOrderID`: first row with the
given carrier order id. -/
def PorterState.getByPorterOrderID (st : PorterState) (pid : String) : Option PorterDelivery :=
  st.rows.find? fun row => row.porterOrderID = pid

/-- `porterDeliveryRepository.Update`: replace the row with the same
primary key. -/
def PorterState.updateRow (st : PorterState) (pd : PorterDelivery) : PorterState :=
  { st with rows := st.rows.map fun row => if row.rowId = pd.rowId then pd else row }

/-- `porterDeliveryRepository.DeactivateOldDeliveries`: set
`is_active = false` on every active row of the order. -/
def PorterState.deactivateOldDeliveries (st : PorterState) (orderId : Nat) : PorterState :=
  { st with rows := st.rows.map fun row =>
      if row.orderId = orderId && row.isActive then { row with isActive := false } else row }

/-- `porterDeliveryRepository.GetActiveByOrderID`: the first active row
of the order, `none` when there is none (the Go version returns a
record-not-found error). -/
def PorterState.getActiveByOrderID (st : PorterState) (orderId : Nat) : Option PorterDelivery :=
  st.rows.find? fun row => row.orderId = orderId && row.isActive

/-- `orderRepository.Update` restricted to the fields the Porter flow
writes. -/
def PorterState.updateOrder (st : PorterState) (order : Order) : PorterState :=
  { st with orders := fun i => if i = order.id then some order else st.orders i }

namespace PorterService

/-- The order status `HandleWebhook` maps each Porter webhook status to
(`""` for statuses outside the mapping). -/
def porterStatusToOrderStatus : String → String
  | "order_accepted" => "dispatched"
  | "order_start_trip" => "dispatched"
  | "order_end_job" => "delivered"
  | "order_cancel" => "cancelled"
  | "order_reopen" => "dispatched"
  | _ => ""

/-- `HandleWebhook` from `internal/services/porter_service.go`: update
the Porter delivery row from the webhook, then set the order's status to
the mapped value whenever it differs from the current one — without
consulting the status-transition table and without appending an order
log.  `now` is `time.Now()`.  Returns the result together with the state
after the call. -/
def handleWebhook (st : PorterState) (payload : PorterWebhookPayload) (now : Nat) :
    Except String Unit × PorterState :=
  match st.getByPorterOrderID payload.orderID with
  | none => (.error ("failed to find Porter delivery with order ID " ++ payload.orderID), st)
  | some porterDelivery =>
    let pd1 := { porterDelivery with status := payload.status, updatedAt := now }
    let pd2 :=
      match payload.status with
      | "order_accepted" =>
        { pd1 with
          partnerName := payload.driverDetails.driverName
          partnerPhoneNumber := payload.driverDetails.mobile
          vehicleNumber := payload.driverDetails.vehicleNumber
          estimatedDeliveryTime :=
            if payload.eventTs > 0 then some payload.eventTs else pd1.estimatedDeliveryTime }
      | "order_start_trip" => { pd1 with pickupTime := some now }
      | "order_end_job" => { pd1 with actualDeliveryTime := some now }
      | "order_reopen" => { pd1 with actualDeliveryTime := none }
      | "order_cancel" => { pd1 with isActive := false }
      | _ => pd1
    let st1 := st.updateRow pd2
    match st1.orders porterDelivery.orderId with
    | none => (.error "failed to get order", st1)
    | some order =>
      let newOrderStatus := porterStatusToOrderStatus payload.status
      if newOrderStatus ≠ "" && order.orderStatus ≠ newOrderStatus then
        (.ok (), st1.updateOrder { order with orderStatus := newOrderStatus })
      else
        (.ok (), st1)

end PorterService

namespace PorterHandler

/-- Outcome of the webhook HTTP handler: the response status code, the
persisted state after the synchronous part of the handler, and the
`ReassignDeliveryPartner` invocations it detaches. -/
structure WebhookResult : Type where
  httpStatus : Nat
  state : PorterState
  reassignCalls : List (Nat × String)

/-- `PorterHandler.Webhook` from the handlers package: validate the
payload, look up the Porter delivery and its order, record the order
status *before* the status sync, run `PorterService.handleWebhook`, and
on an `order_cancel` whose pre-webhook order status was not already
`cancelled`, detach one `ReassignDeliveryPartner(orderId, "porter")`
call.  The detached call runs concurrently with its own bounded-timeout
context; here it is recorded in `reassignCalls` (its body is embedded
separately as `DeliveryPartnerService.reassignDeliveryPartner`). -/
def webhook (st : PorterState) (payload : PorterWebhookPayload) (now : Nat) : WebhookResult :=
  if payload.orderID = "" || payload.status = "" then
    ⟨400, st, []⟩
  else
    match st.getByPorterOrderID payload.orderID with
    | none => ⟨404, st, []⟩
    | some porterDelivery =>
      match st.orders porterDelivery.orderId with
      | none => ⟨404, st, []⟩
      | some order =>
        let originalOrderStatus := order.orderStatus
        match PorterService.handleWebhook st payload now with
        | (.error _, st') => ⟨500, st', []⟩
        | (.ok _, st') =>
          if payload.status = "order_cancel" && originalOrderStatus ≠ "cancelled" then
            ⟨200, st', [(porterDelivery.orderId, "porter")]⟩
          else
            ⟨200, st', []⟩

end PorterHandler

namespace DeliveryPartnerService

/-- Outcome of `ReassignDeliveryPartner`: the final result, the state
after the flow, the carrier order ids passed to
`porterService.CancelOrder`, the cancel failures that were logged (not
propagated), and the orders passed to the dispatch path
(`CreateDeliveryOrder`). -/
structure ReassignResult : Type where
  result : Except String Unit
  state : PorterState
  cancelAttempts : List String
  cancelFailuresLogged : List String
  dispatchCalls : List Nat

/-- `ReassignDeliveryPartner` from
`internal/services/delivery_partner_service.go`: look the order up,
deactivate the order's active Porter delivery rows, then fetch the
active row (`GetActiveByOrderID`) and best-effort cancel its carrier
order — a cancel failure is logged and the flow continues — and finally
re-invoke the dispatch path (`CreateDeliveryOrder`) for the order.
`cancelOk` models the carrier's cancel API outcome and
`dispatchOutcome` the outcome of `CreateDeliveryOrder` (whose internals
— restaurant and partner lookups, the carrier create call — are outside
this flow's logic). -/
def reassignDeliveryPartner (st : PorterState) (orderID : Nat) (preferredPartner : String)
    (cancelOk : String → Bool) (dispatchOutcome : Except String Unit) : ReassignResult :=
  match st.orders orderID with
  | none => ⟨.error "failed to get order", st, [], [], []⟩
  | some _order =>
    if preferredPartner = "porter" then
      let st1 := st.deactivateOldDeliveries orderID
      match st1.getActiveByOrderID orderID with
      | some activeDelivery =>
        let failures :=
          if cancelOk activeDelivery.porterOrderID then [] else [activeDelivery.porterOrderID]
        ⟨dispatchOutcome, st1, [activeDelivery.porterOrderID], failures, [orderID]⟩
      | none =>
        ⟨dispatchOutcome, st1, [], [], [orderID]⟩
    else
      ⟨.error ("reassignment for partner " ++ preferredPartner ++ " not yet implemented"),
        st, [], [], []⟩

end DeliveryPartnerService

/-! ## Claims -/

/-- The eight `(current, requested)` order pairs listed in §4.1's order
table. -/
def orderAllowedPairs : List (String × String) :=
  [("pending", "confirmed"), ("pending", "cancelled"),
   ("confirmed", "preparing"), ("confirmed", "cancelled"),
   ("preparing", "dispatched"), ("preparing", "cancelled"),
   ("dispatched", "delivered"), ("dispatched", "cancelled")]

/-- The five `(current, requested)` refund pairs listed in §4.1's refund
table. -/
def refundAllowedPairs : List (String × String) :=
  [("pending", "approved"), ("pending", "rejected"),
   ("approved", "processed"), ("approved", "failed"),
   ("failed", "approved")]

/-- C1: for every pair of status strings, the order transition check
returns true exactly when the pair is in the order table and the refund
transition check returns true exactly when the pair is in the refund
table; hence `delivered`/`cancelled` (orders) and
`rejected`/`processed` (refunds) admit no outgoing transition and every
unlisted pair, unknown statuses included, yields false. -/
theorem claim_C1_transition_tables :
    (∀ cur req : String,
      OrderService.isValidStatusTransition cur req = true ↔ (cur, req) ∈ orderAllowedPairs) ∧
    (∀ cur req : String,
      RefundService.isValidStatusTransition cur req = true ↔ (cur, req) ∈ refundAllowedPairs) := by
  constructor
  · intro cur req
    simp only [OrderService.isValidStatusTransition, List.lookup, orderAllowedPairs]
    by_cases h1 : cur = "pending"
    · subst h1; simp
    by_cases h2 : cur = "confirmed"
    · subst h2; simp
    by_cases h3 : cur = "preparing"
    · subst h3; simp
    by_cases h4 : cur = "dispatched"
    · subst h4; simp
    by_cases h5 : cur = "delivered"
    · subst h5; simp
    by_cases h6 : cur = "cancelled"
    · subst h6; simp
    · simp [h1, h2, h3, h4, h5, h6, beq_false_of_ne, Ne.symm]
  · intro cur req
    simp only [RefundService.isValidStatusTransition, List.lookup, refundAllowedPairs]
    by_cases h1 : cur = "pending"
    · subst h1; simp
    by_cases h2 : cur = "approved"
    · subst h2; simp
    by_cases h3 : cur = "rejected"
    · subst h3; simp
    by_cases h4 : cur = "processed"
    · subst h4; simp
    by_cases h5 : cur = "failed"
    · subst h5; simp
    · simp [h1, h2, h3, h4, h5, beq_false_of_ne, Ne.symm]

/-- Witness for C1: the tables instantiated at concrete pairs — a listed
order pair accepted, and unlisted pairs (terminal and unknown statuses)
rejected. -/
theorem claim_C1_transition_tables_witness :
    OrderService.isValidStatusTransition "pending" "confirmed" = true ∧
    OrderService.isValidStatusTransition "delivered" "cancelled" = false ∧
    OrderService.isValidStatusTransition "unknown" "confirmed" = false ∧
    RefundService.isValidStatusTransition "failed" "approved" = true ∧
    RefundService.isValidStatusTransition "processed" "approved" = false :=
  ⟨(claim_C1_transition_tables.1 "pending" "confirmed").mpr (by decide),
    by rcases h : OrderService.isValidStatusTransition "delivered" "cancelled" with _ | _
       · rfl
       · exact absurd ((claim_C1_transition_tables.1 "delivered" "cancelled").mp h) (by decide),
    by rcases h : OrderService.isValidStatusTransition "unknown" "confirmed" with _ | _
       · rfl
       · exact absurd ((claim_C1_transition_tables.1 "unknown" "confirmed").mp h) (by decide),
    (claim_C1_transition_tables.2 "failed" "approved").mpr (by decide),
    by rcases h : RefundService.isValidStatusTransition "processed" "approved" with _ | _
       · rfl
       · exact absurd ((claim_C1_transition_tables.2 "processed" "approved").mp h) (by decide)⟩

/-- C2: when the requested status change of an order (resp. refund) is
not in its table, `UpdateOrderStatus` (resp. `UpdateRefundStatus`)
returns the invalid-transition error and leaves the store — every
record, status, log and field — exactly as before the call. -/
theorem claim_C2_invalid_transition_no_mutation :
    (∀ (store : OrderStore) (orderID : Nat) (order : Order) (req : String)
        (restaurantID now : Nat),
      store orderID = some order →
      order.restaurantId = restaurantID →
      OrderService.isValidStatusTransition order.orderStatus req = false →
      OrderService.updateOrderStatus store orderID req restaurantID now =
        (.error "invalid status transition", store)) ∧
    (∀ (store : RefundStore) (refundID : Nat) (refund : Refund) (req comment : String),
      store refundID = some refund →
      RefundService.isValidStatusTransition refund.status req = false →
      RefundService.updateRefundStatus store refundID req comment =
        (.error "invalid status transition", store)) := by
  constructor
  · intro store orderID order req restaurantID now hfound hown hinvalid
    simp [OrderService.updateOrderStatus, hfound, hown, hinvalid]
  · intro store refundID refund req comment hfound hinvalid
    simp [RefundService.updateRefundStatus, hfound, hinvalid]

/-- A concrete delivered order, for the C2 witness. -/
def orderC2 : Order :=
  { id := 7, userId := 3, restaurantId := 5, orderStatus := "delivered", orderLogs := [] }

/-- A concrete order store containing only `orderC2`. -/
def orderStoreC2 : OrderStore := fun i => if i = 7 then some orderC2 else none

/-- A concrete processed refund, for the C2 witness. -/
def refundC2 : Refund :=
  { id := 2, orderId := 7, amount := 100, status := "processed", adminComment := none }

/-- A concrete refund store containing only `refundC2`. -/
def refundStoreC2 : RefundStore := fun i => if i = 2 then some refundC2 else none

/-- Witness for C2: a concrete delivered order and a processed refund,
each asked for a transition outside the table, hit the error branch and
leave their stores untouched. -/
theorem claim_C2_witness :
    orderStoreC2 7 = some orderC2 ∧
    OrderService.isValidStatusTransition orderC2.orderStatus "cancelled" = false ∧
    OrderService.updateOrderStatus orderStoreC2 7 "cancelled" 5 99 =
      (.error "invalid status transition", orderStoreC2) ∧
    refundStoreC2 2 = some refundC2 ∧
    RefundService.isValidStatusTransition refundC2.status "approved" = false ∧
    RefundService.updateRefundStatus refundStoreC2 2 "approved" "" =
      (.error "invalid status transition", refundStoreC2) :=
  ⟨rfl, by decide,
    claim_C2_invalid_transition_no_mutation.1 orderStoreC2 7 orderC2 "cancelled" 5 99
      rfl rfl (by decide),
    rfl, by decide,
    claim_C2_invalid_transition_no_mutation.2 refundStoreC2 2 refundC2 "approved" ""
      rfl (by decide)⟩

/-- An auto-managed restaurant with the claim's overnight monday
schedule, keyed — as the claim writes it — by the lowercase day name. -/
def restaurantMonOvernight : Restaurant :=
  { id := 1, name := "night owl", status := "active", isOpen := false, autoOpenClose := true,
    openingHours := some [("monday", .obj [("is_open", .bool true),
      ("open_time", .str "22:00"), ("close_time", .str "04:00")])],
    lastStatusUpdate := none }

/-- The same overnight schedule keyed by the capitalized Go weekday
name, which is how `isRestaurantOpenAtTime` looks the day up. -/
def restaurantMonOvernightCap : Restaurant :=
  { id := 1, name := "night owl", status := "active", isOpen := false, autoOpenClose := true,
    openingHours := some [("Monday", .obj [("is_open", .bool true),
      ("open_time", .str "22:00"), ("close_time", .str "04:00")])],
    lastStatusUpdate := none }

/-- Counterexample to C3: the claim's concrete overnight schedule
(`monday` 22:00–04:00) at Monday 23:00 must evaluate open under the
spec's overnight rule, but `isRestaurantOpenAtTime` — one of the two
evaluators the claim covers — reports closed: with the claim's lowercase
key the capitalized lookup misses, and even with a capitalized key it
has no overnight branch, so `"23:00" <= "04:00"` fails. -/
theorem claim_C3_counterexample :
    specOpenRule "22:00" "04:00" "23:00" = true ∧
    ShopTimeService.isRestaurantOpenAtTime restaurantMonOvernight
      { weekday := .monday, hhmm := "23:00" } = false ∧
    ShopTimeService.isRestaurantOpenAtTime restaurantMonOvernightCap
      { weekday := .monday, hhmm := "23:00" } = false := by
  exact ⟨by decide, by decide, by decide⟩

/-- C3 (amended): the scheduler evaluator `shouldRestaurantBeOpenAtTime`
decides exactly by the spec's lexical rule — overnight when
`close_time < open_time` — for every auto-managed restaurant whose
(lowercase-keyed) day entry has `is_open=true` and non-empty times, and
the concrete monday 22:00–04:00 examples hold for it; the product-listing
evaluator `isRestaurantOpenAtTime`, however, keys the day by the
capitalized weekday name and always compares
`open_time <= time <= close_time` with no overnight branch. -/
theorem claim_C3_overnight_rule :
    (∀ (r : Restaurant) (t : CheckTime) (hs : List (String × JsonVal))
        (m : List (String × JsonVal)),
      r.autoOpenClose = true →
      r.openingHours = some hs →
      hs.lookup t.weekday.lowerString = some (.obj m) →
      JsonVal.asBool (m.lookup "is_open") = true →
      JsonVal.asStr (m.lookup "open_time") ≠ "" →
      JsonVal.asStr (m.lookup "close_time") ≠ "" →
      EnhancedCronService.shouldRestaurantBeOpenAtTime r t =
        specOpenRule (JsonVal.asStr (m.lookup "open_time"))
          (JsonVal.asStr (m.lookup "close_time")) t.hhmm) ∧
    EnhancedCronService.shouldRestaurantBeOpenAtTime restaurantMonOvernight
      { weekday := .monday, hhmm := "23:00" } = true ∧
    EnhancedCronService.shouldRestaurantBeOpenAtTime restaurantMonOvernight
      { weekday := .monday, hhmm := "05:00" } = false ∧
    EnhancedCronService.shouldRestaurantBeOpenAtTime restaurantMonOvernight
      { weekday := .monday, hhmm := "21:59" } = false ∧
    (∀ (r : Restaurant) (t : CheckTime) (hs : List (String × JsonVal))
        (m : List (String × JsonVal)),
      r.autoOpenClose = true →
      r.openingHours = some hs →
      hs.lookup t.weekday.goString = some (.obj m) →
      JsonVal.asBool (m.lookup "is_open") = true →
      JsonVal.asStr (m.lookup "open_time") ≠ "" →
      JsonVal.asStr (m.lookup "close_time") ≠ "" →
      ShopTimeService.isRestaurantOpenAtTime r t =
        (goStrLe (JsonVal.asStr (m.lookup "open_time")) t.hhmm &&
         goStrLe t.hhmm (JsonVal.asStr (m.lookup "close_time")))) := by
  refine ⟨?_, by decide, by decide, by decide, ?_⟩
  · intro r t hs m hauto hhours hday hopen hot hct
    simp [EnhancedCronService.shouldRestaurantBeOpenAtTime, specOpenRule,
      hauto, hhours, hday, hopen, hot, hct]
  · intro r t hs m hauto hhours hday hopen hot hct
    simp [ShopTimeService.isRestaurantOpenAtTime, hauto, hhours, hday, hopen, hot, hct]

/-- Witness for C3 (amended): the overnight monday schedule instantiates
both universal parts — the scheduler evaluator agrees with the spec rule
at Monday 23:00, and the capitalized-keyed variant of the same schedule
under `isRestaurantOpenAtTime` equals the plain same-day comparison. -/
theorem claim_C3_overnight_rule_witness :
    restaurantMonOvernight.autoOpenClose = true ∧
    EnhancedCronService.shouldRestaurantBeOpenAtTime restaurantMonOvernight
      { weekday := .monday, hhmm := "23:00" } =
      specOpenRule "22:00" "04:00" "23:00" ∧
    ShopTimeService.isRestaurantOpenAtTime restaurantMonOvernightCap
      { weekday := .monday, hhmm := "23:00" } =
      (goStrLe "22:00" "23:00" && goStrLe "23:00" "04:00") :=
  ⟨rfl,
    claim_C3_overnight_rule.1 restaurantMonOvernight { weekday := .monday, hhmm := "23:00" }
      _ _ rfl rfl rfl rfl (by decide) (by decide),
    claim_C3_overnight_rule.2.2.2.2 restaurantMonOvernightCap
      { weekday := .monday, hhmm := "23:00" } _ _ rfl rfl rfl rfl (by decide) (by decide)⟩

/-- A manually-controlled restaurant (auto_open_close=false) that is
marked open and has an opening-hours map with no weekday entries. -/
def restaurantManualOpen : Restaurant :=
  { id := 2, name := "manual", status := "active", isOpen := true, autoOpenClose := false,
    openingHours := some [], lastStatusUpdate := none }

/-- Counterexample to C4: `restaurantManualOpen`'s weekday has no entry
in its opening_hours map, yet both evaluators report it open, because
`auto_open_close=false` short-circuits to the manual `is_open` flag
before the map is ever consulted — the claim's "closed regardless of the
restaurant's auto_open_close setting" fails. -/
theorem claim_C4_counterexample :
    (restaurantManualOpen.openingHours = some [] ∧
      restaurantManualOpen.autoOpenClose = false) ∧
    EnhancedCronService.shouldRestaurantBeOpenAtTime restaurantManualOpen
      { weekday := .monday, hhmm := "12:00" } = true ∧
    ShopTimeService.isRestaurantOpenAtTime restaurantManualOpen
      { weekday := .monday, hhmm := "12:00" } = true :=
  ⟨⟨rfl, rfl⟩, by decide, by decide⟩

/-- C4 (amended): for auto-managed restaurants (auto_open_close=true)
with a non-nil opening_hours map, a weekday with no entry — or an entry
with is_open=false — makes both evaluators report closed with no further
checks of open/close times; but when auto_open_close=false both
evaluators return the manual is_open flag without consulting the map,
and on a nil opening_hours map the scheduler evaluator reports closed
while the product-listing evaluator returns the manual flag. -/
theorem claim_C4_absent_day_closed :
    (∀ (r : Restaurant) (t : CheckTime),
      r.autoOpenClose = false →
      EnhancedCronService.shouldRestaurantBeOpenAtTime r t = r.isOpen ∧
      ShopTimeService.isRestaurantOpenAtTime r t = r.isOpen) ∧
    (∀ (r : Restaurant) (t : CheckTime) (hs : List (String × JsonVal)),
      r.autoOpenClose = true →
      r.openingHours = some hs →
      hs.lookup t.weekday.lowerString = none →
      EnhancedCronService.shouldRestaurantBeOpenAtTime r t = false) ∧
    (∀ (r : Restaurant) (t : CheckTime) (hs m : List (String × JsonVal)),
      r.autoOpenClose = true →
      r.openingHours = some hs →
      hs.lookup t.weekday.lowerString = some (.obj m) →
      JsonVal.asBool (m.lookup "is_open") = false →
      EnhancedCronService.shouldRestaurantBeOpenAtTime r t = false) ∧
    (∀ (r : Restaurant) (t : CheckTime) (hs : List (String × JsonVal)),
      r.autoOpenClose = true →
      r.openingHours = some hs →
      hs.lookup t.weekday.goString = none →
      ShopTimeService.isRestaurantOpenAtTime r t = false) ∧
    (∀ (r : Restaurant) (t : CheckTime) (hs m : List (String × JsonVal)),
      r.autoOpenClose = true →
      r.openingHours = some hs →
      hs.lookup t.weekday.goString = some (.obj m) →
      JsonVal.asBool (m.lookup "is_open") = false →
      ShopTimeService.isRestaurantOpenAtTime r t = false) ∧
    (∀ (r : Restaurant) (t : CheckTime),
      r.autoOpenClose = true →
      r.openingHours = none →
      EnhancedCronService.shouldRestaurantBeOpenAtTime r t = false ∧
      ShopTimeService.isRestaurantOpenAtTime r t = r.isOpen) := by
  refine ⟨?_, ?_, ?_, ?_, ?_, ?_⟩
  · intro r t hauto
    constructor
    · simp [EnhancedCronService.shouldRestaurantBeOpenAtTime, hauto]
    · simp [ShopTimeService.isRestaurantOpenAtTime, hauto]
  · intro r t hs hauto hhours hday
    simp [EnhancedCronService.shouldRestaurantBeOpenAtTime, hauto, hhours, hday]
  · intro r t hs m hauto hhours hday hopen
    simp [EnhancedCronService.shouldRestaurantBeOpenAtTime, hauto, hhours, hday, hopen]
  · intro r t hs hauto hhours hday
    simp [ShopTimeService.isRestaurantOpenAtTime, hauto, hhours, hday]
  · intro r t hs m hauto hhours hday hopen
    simp [ShopTimeService.isRestaurantOpenAtTime, hauto, hhours, hday, hopen]
  · intro r t hauto hhours
    constructor
    · simp [EnhancedCronService.shouldRestaurantBeOpenAtTime, hauto, hhours]
    · simp [ShopTimeService.isRestaurantOpenAtTime, hauto, hhours]

/-- An auto-managed restaurant whose map has no tuesday entry. -/
def restaurantNoTuesday : Restaurant :=
  { id := 3, name := "weekdayless", status := "active", isOpen := true, autoOpenClose := true,
    openingHours := some [("monday", .obj [("is_open", .bool true),
      ("open_time", .str "09:00"), ("close_time", .str "18:00")])],
    lastStatusUpdate := none }

/-- Witness for C4 (amended): the manual restaurant returns its flag
under both evaluators, and the auto-managed `restaurantNoTuesday` is
closed on tuesday under both. -/
theorem claim_C4_absent_day_closed_witness :
    (EnhancedCronService.shouldRestaurantBeOpenAtTime restaurantManualOpen
      { weekday := .tuesday, hhmm := "12:00" } = restaurantManualOpen.isOpen ∧
     ShopTimeService.isRestaurantOpenAtTime restaurantManualOpen
      { weekday := .tuesday, hhmm := "12:00" } = restaurantManualOpen.isOpen) ∧
    EnhancedCronService.shouldRestaurantBeOpenAtTime restaurantNoTuesday
      { weekday := .tuesday, hhmm := "12:00" } = false ∧
    ShopTimeService.isRestaurantOpenAtTime restaurantNoTuesday
      { weekday := .tuesday, hhmm := "12:00" } = false :=
  ⟨claim_C4_absent_day_closed.1 restaurantManualOpen
      { weekday := .tuesday, hhmm := "12:00" } rfl,
    claim_C4_absent_day_closed.2.1 restaurantNoTuesday
      { weekday := .tuesday, hhmm := "12:00" } _ rfl rfl rfl,
    claim_C4_absent_day_closed.2.2.2.1 restaurantNoTuesday
      { weekday := .tuesday, hhmm := "12:00" } _ rfl rfl rfl⟩

/-- An auto-managed restaurant, manually flagged open, whose monday
entry has `is_open=true` but an empty `open_time`. -/
def restaurantEmptyOpenTime : Restaurant :=
  { id := 4, name := "empty open", status := "active", isOpen := true, autoOpenClose := true,
    openingHours := some [("monday", .obj [("is_open", .bool true),
      ("open_time", .str ""), ("close_time", .str "18:00")])],
    lastStatusUpdate := none }

/-- Counterexample to C5: `restaurantEmptyOpenTime` is manually flagged
open and its monday entry has `is_open=true` with an empty `open_time`,
yet the scheduler evaluator `shouldRestaurantBeOpenAtTime` — one of the
two evaluators the claim covers — reports closed instead of falling back
to the manual flag. -/
theorem claim_C5_counterexample :
    restaurantEmptyOpenTime.isOpen = true ∧
    EnhancedCronService.shouldRestaurantBeOpenAtTime restaurantEmptyOpenTime
      { weekday := .monday, hhmm := "12:00" } = false :=
  ⟨rfl, by decide⟩

/-- C5 (amended): only the product-listing evaluator
`isRestaurantOpenAtTime` falls back to the restaurant's manually-set
is_open flag when the day entry has is_open=true but a missing or empty
open_time/close_time; the scheduler evaluator
`shouldRestaurantBeOpenAtTime` treats such a day as closed. -/
theorem claim_C5_empty_time_fallback :
    (∀ (r : Restaurant) (t : CheckTime) (hs m : List (String × JsonVal)),
      r.autoOpenClose = true →
      r.openingHours = some hs →
      hs.lookup t.weekday.goString = some (.obj m) →
      JsonVal.asBool (m.lookup "is_open") = true →
      (JsonVal.asStr (m.lookup "open_time") = "" ∨
       JsonVal.asStr (m.lookup "close_time") = "") →
      ShopTimeService.isRestaurantOpenAtTime r t = r.isOpen) ∧
    (∀ (r : Restaurant) (t : CheckTime) (hs m : List (String × JsonVal)),
      r.autoOpenClose = true →
      r.openingHours = some hs →
      hs.lookup t.weekday.lowerString = some (.obj m) →
      JsonVal.asBool (m.lookup "is_open") = true →
      (JsonVal.asStr (m.lookup "open_time") = "" ∨
       JsonVal.asStr (m.lookup "close_time") = "") →
      EnhancedCronService.shouldRestaurantBeOpenAtTime r t = false) := by
  constructor
  · intro r t hs m hauto hhours hday hopen hempty
    rcases hempty with he | he <;>
      simp [ShopTimeService.isRestaurantOpenAtTime, hauto, hhours, hday, hopen, he]
  · intro r t hs m hauto hhours hday hopen hempty
    rcases hempty with he | he <;>
      simp [EnhancedCronService.shouldRestaurantBeOpenAtTime, hauto, hhours, hday, hopen, he]

/-- The empty-open-time schedule keyed by the capitalized weekday name,
as `isRestaurantOpenAtTime` looks it up. -/
def restaurantEmptyOpenTimeCap : Restaurant :=
  { id := 4, name := "empty open", status := "active", isOpen := true, autoOpenClose := true,
    openingHours := some [("Monday", .obj [("is_open", .bool true),
      ("open_time", .str ""), ("close_time", .str "18:00")])],
    lastStatusUpdate := none }

/-- Witness for C5 (amended): the empty-open-time schedule falls back to
the manual flag under `isRestaurantOpenAtTime` and evaluates closed
under `shouldRestaurantBeOpenAtTime`. -/
theorem claim_C5_empty_time_fallback_witness :
    restaurantEmptyOpenTimeCap.isOpen = true ∧
    ShopTimeService.isRestaurantOpenAtTime restaurantEmptyOpenTimeCap
      { weekday := .monday, hhmm := "12:00" } = restaurantEmptyOpenTimeCap.isOpen ∧
    EnhancedCronService.shouldRestaurantBeOpenAtTime restaurantEmptyOpenTime
      { weekday := .monday, hhmm := "12:00" } = false :=
  ⟨rfl,
    claim_C5_empty_time_fallback.1 restaurantEmptyOpenTimeCap
      { weekday := .monday, hhmm := "12:00" } _ _ rfl rfl rfl (by decide) (Or.inl (by decide)),
    claim_C5_empty_time_fallback.2 restaurantEmptyOpenTime
      { weekday := .monday, hhmm := "12:00" } _ _ rfl rfl rfl (by decide) (Or.inl (by decide))⟩

/-- A product whose own `is_available` flag is off. -/
def productOff : Product := { id := 10, name := "paused dish", isAvailable := false }

/-- Counterexample to C6: `productOff` belongs to zero time-groups and
the restaurant is open, yet `isProductAvailable` returns unavailable
(with reason "Product is currently unavailable"), because availability
also requires the product's own `is_available` flag, which the claim
omits. -/
theorem claim_C6_counterexample :
    TimeBasedProductService.isProductAvailable productOff []
      { weekday := .monday, hhmm := "12:00" } true = false ∧
    TimeBasedProductService.getUnavailabilityReason productOff [] true =
      "Product is currently unavailable" :=
  ⟨by decide, by decide⟩

/-- C6 (amended): when the restaurant is closed a product is unavailable
with reason "Restaurant is closed" regardless of its groups; when it is
open, a product with `is_available=false` is unavailable (reason
"Product is currently unavailable"); a product with `is_available=true`
and zero time-groups is available; and one with `is_available=true` and
one or more groups is available iff the evaluation time falls in at
least one active group's window under the overnight rule. -/
theorem claim_C6_product_availability :
    (∀ (p : Product) (gs : List TimeRangeProductsGroup) (t : CheckTime),
      TimeBasedProductService.isProductAvailable p gs t false = false ∧
      TimeBasedProductService.getUnavailabilityReason p gs false = "Restaurant is closed") ∧
    (∀ (p : Product) (gs : List TimeRangeProductsGroup) (t : CheckTime),
      p.isAvailable = false →
      TimeBasedProductService.isProductAvailable p gs t true = false ∧
      TimeBasedProductService.getUnavailabilityReason p gs true =
        "Product is currently unavailable") ∧
    (∀ (p : Product) (t : CheckTime),
      p.isAvailable = true →
      TimeBasedProductService.isProductAvailable p [] t true = true) ∧
    (∀ (p : Product) (gs : List TimeRangeProductsGroup) (t : CheckTime),
      p.isAvailable = true →
      gs ≠ [] →
      TimeBasedProductService.isProductAvailable p gs t true =
        gs.any (fun g =>
          g.isActive && TimeBasedProductService.isTimeInRange t.hhmm g.startTime g.endTime)) := by
  refine ⟨?_, ?_, ?_, ?_⟩
  · intro p gs t
    exact ⟨by simp [TimeBasedProductService.isProductAvailable],
      by simp [TimeBasedProductService.getUnavailabilityReason]⟩
  · intro p gs t hoff
    exact ⟨by simp [TimeBasedProductService.isProductAvailable, hoff],
      by simp [TimeBasedProductService.getUnavailabilityReason, hoff]⟩
  · intro p t hon
    simp [TimeBasedProductService.isProductAvailable, hon]
  · intro p gs t hon hne
    simp [TimeBasedProductService.isProductAvailable, hon, List.isEmpty_iff, hne]

/-- A product that is itself available. -/
def productOn : Product := { id := 11, name := "all day dish", isAvailable := true }

/-- A lunch window 11:00–16:00, active. -/
def lunchGroup : TimeRangeProductsGroup :=
  { restaurantId := 1, groupName := "Lunch", startTime := "11:00", endTime := "16:00",
    isActive := true }

/-- Witness for C6 (amended): concrete evaluations — closed restaurant,
paused product, zero-group product, and a lunch-gated product at noon. -/
theorem claim_C6_product_availability_witness :
    (TimeBasedProductService.isProductAvailable productOn [lunchGroup]
      { weekday := .monday, hhmm := "12:00" } false = false ∧
     TimeBasedProductService.getUnavailabilityReason productOn [lunchGroup] false =
       "Restaurant is closed") ∧
    (TimeBasedProductService.isProductAvailable productOff [lunchGroup]
      { weekday := .monday, hhmm := "12:00" } true = false ∧
     TimeBasedProductService.getUnavailabilityReason productOff [lunchGroup] true =
       "Product is currently unavailable") ∧
    TimeBasedProductService.isProductAvailable productOn []
      { weekday := .monday, hhmm := "12:00" } true = true ∧
    TimeBasedProductService.isProductAvailable productOn [lunchGroup]
      { weekday := .monday, hhmm := "12:00" } true =
      [lunchGroup].any (fun g =>
        g.isActive && TimeBasedProductService.isTimeInRange "12:00" g.startTime g.endTime) :=
  ⟨claim_C6_product_availability.1 productOn [lunchGroup] { weekday := .monday, hhmm := "12:00" },
    claim_C6_product_availability.2.1 productOff [lunchGroup]
      { weekday := .monday, hhmm := "12:00" } rfl,
    claim_C6_product_availability.2.2.1 productOn { weekday := .monday, hhmm := "12:00" } rfl,
    claim_C6_product_availability.2.2.2 productOn [lunchGroup]
      { weekday := .monday, hhmm := "12:00" } rfl (by decide)⟩

/-- C7: for an `order_cancel` webhook whose delivery record is found,
if the order's status read before the webhook's status sync was already
"cancelled" no reassignment is attempted, and for any other status
reassignment is invoked exactly once (and the webhook succeeds). -/
theorem claim_C7_cancel_triggers_reassignment :
    ∀ (st : PorterState) (payload : PorterWebhookPayload) (now : Nat)
      (pd : PorterDelivery) (order : Order),
      payload.status = "order_cancel" →
      payload.orderID ≠ "" →
      st.getByPorterOrderID payload.orderID = some pd →
      st.orders pd.orderId = some order →
      (PorterHandler.webhook st payload now).reassignCalls =
        (if order.orderStatus = "cancelled" then [] else [(pd.orderId, "porter")]) ∧
      (PorterHandler.webhook st payload now).httpStatus = 200 := by
  intro st payload now pd order hstatus hne hpd horder
  have horders1 : ∀ pd', (st.updateRow pd').orders = st.orders := fun _ => rfl
  by_cases hc : order.orderStatus = "cancelled" <;>
    simp [PorterHandler.webhook, PorterService.handleWebhook, PorterService.porterStatusToOrderStatus,
      PorterState.updateRow, hstatus, hne, hpd, horder, hc]

/-- The active Porter delivery row "P1" of order 1. -/
def pdC7 : PorterDelivery :=
  { rowId := 1, orderId := 1, porterOrderID := "P1", status := "order_accepted",
    isActive := true, partnerName := "", partnerPhoneNumber := "", vehicleNumber := "",
    estimatedDeliveryTime := none, pickupTime := none, actualDeliveryTime := none,
    updatedAt := 0 }

/-- Order 1 in status "dispatched". -/
def orderDispatched : Order :=
  { id := 1, userId := 2, restaurantId := 3, orderStatus := "dispatched", orderLogs := [] }

/-- Order 1 in status "cancelled" (customer-initiated). -/
def orderCancelledC7 : Order :=
  { id := 1, userId := 2, restaurantId := 3, orderStatus := "cancelled", orderLogs := [] }

/-- State where order 1 is dispatched and "P1" is active. -/
def stDispatched : PorterState :=
  { rows := [pdC7], orders := fun i => if i = 1 then some orderDispatched else none }

/-- State where order 1 is already cancelled and "P1" is active. -/
def stCancelled : PorterState :=
  { rows := [pdC7], orders := fun i => if i = 1 then some orderCancelledC7 else none }

/-- The carrier's `order_cancel` webhook for "P1". -/
def payloadCancel : PorterWebhookPayload :=
  { orderID := "P1", status := "order_cancel",
    driverDetails := { driverName := "", mobile := "", vehicleNumber := "" }, eventTs := 0 }

/-- Witness for C7: on the dispatched order the `order_cancel` webhook
detaches exactly one reassignment call; on the already-cancelled order
it detaches none. -/
theorem claim_C7_cancel_triggers_reassignment_witness :
    ((PorterHandler.webhook stDispatched payloadCancel 5).reassignCalls =
        (if orderDispatched.orderStatus = "cancelled" then [] else [(1, "porter")]) ∧
      (PorterHandler.webhook stDispatched payloadCancel 5).httpStatus = 200) ∧
    ((PorterHandler.webhook stCancelled payloadCancel 5).reassignCalls =
        (if orderCancelledC7.orderStatus = "cancelled" then [] else [(1, "porter")]) ∧
      (PorterHandler.webhook stCancelled payloadCancel 5).httpStatus = 200) :=
  ⟨claim_C7_cancel_triggers_reassignment stDispatched payloadCancel 5 pdC7 orderDispatched
      rfl (by decide) rfl rfl,
    claim_C7_cancel_triggers_reassignment stCancelled payloadCancel 5 pdC7 orderCancelledC7
      rfl (by decide) rfl rfl⟩

/-- C8 (code bug exhibited): starting from a state whose order 1 has the
active carrier row "P1", the reassignment flow deactivates every row and
re-invokes dispatch, but attempts no carrier cancel at all — the flow
deactivates the rows before `GetActiveByOrderID` runs, so the lookup
that feeds `CancelOrder` can never find the row that was active at flow
start, contradicting the claimed (and commented) best-effort cancel. -/
theorem claim_C8_stale_cancel_dead_code :
    stDispatched.getActiveByOrderID 1 = some pdC7 ∧
    (DeliveryPartnerService.reassignDeliveryPartner stDispatched 1 "porter"
        (fun _ => true) (.ok ())).cancelAttempts = [] ∧
    (DeliveryPartnerService.reassignDeliveryPartner stDispatched 1 "porter"
        (fun _ => true) (.ok ())).state.rows.all (fun row => !row.isActive) = true ∧
    (DeliveryPartnerService.reassignDeliveryPartner stDispatched 1 "porter"
        (fun _ => true) (.ok ())).dispatchCalls = [1] :=
  ⟨by decide, by decide, by decide, by decide⟩

/-- An auto-managed restaurant open 09:00–18:00 on monday, currently
flagged closed, with the given id. -/
def dayRestaurant (i : Nat) : Restaurant :=
  { id := i, name := "r", status := "active", isOpen := false, autoOpenClose := true,
    openingHours := some [("monday", .obj [("is_open", .bool true),
      ("open_time", .str "09:00"), ("close_time", .str "18:00")])],
    lastStatusUpdate := none }

/-- C9: over one scheduler page, a persistence failure for one
restaurant is logged and that restaurant skipped while every other
restaurant whose computed status differs is still updated — the writes
are exactly the changed-and-not-failing restaurants, the logged errors
exactly the changed-and-failing ones, and the page loop always returns
(errors are counted, never thrown); concretely, with restaurants A, B, C
all due to flip and B's write failing, A and C are persisted and B is
logged as the single error. -/
theorem claim_C9_page_failure_isolation :
    (∀ (page : List Restaurant) (fails : Nat → Bool) (t : CheckTime) (now : Nat),
      (EnhancedCronService.updateAllRestaurantStatusesPage page fails t now).writes =
        (page.filter fun r =>
          (r.isOpen != EnhancedCronService.shouldRestaurantBeOpenAtTime r t) && !fails r.id).map
          (fun r => { r with isOpen := EnhancedCronService.shouldRestaurantBeOpenAtTime r t,
                             lastStatusUpdate := some now }) ∧
      (EnhancedCronService.updateAllRestaurantStatusesPage page fails t now).loggedErrors =
        (page.filter fun r =>
          (r.isOpen != EnhancedCronService.shouldRestaurantBeOpenAtTime r t) && fails r.id).map
          (·.id) ∧
      (EnhancedCronService.updateAllRestaurantStatusesPage page fails t now).totalErrors =
        ((page.filter fun r =>
          (r.isOpen != EnhancedCronService.shouldRestaurantBeOpenAtTime r t) && fails r.id).map
          (·.id)).length) ∧
    (EnhancedCronService.updateAllRestaurantStatusesPage
        [dayRestaurant 1, dayRestaurant 2, dayRestaurant 3]
        (fun i => i == 2) { weekday := .monday, hhmm := "12:00" } 60).writes =
      [{ dayRestaurant 1 with isOpen := true, lastStatusUpdate := some 60 },
       { dayRestaurant 3 with isOpen := true, lastStatusUpdate := some 60 }] ∧
    (EnhancedCronService.updateAllRestaurantStatusesPage
        [dayRestaurant 1, dayRestaurant 2, dayRestaurant 3]
        (fun i => i == 2) { weekday := .monday, hhmm := "12:00" } 60).loggedErrors = [2] ∧
    (EnhancedCronService.updateAllRestaurantStatusesPage
        [dayRestaurant 1, dayRestaurant 2, dayRestaurant 3]
        (fun i => i == 2) { weekday := .monday, hhmm := "12:00" } 60).totalErrors = 1 ∧
    (EnhancedCronService.updateAllRestaurantStatusesPage
        [dayRestaurant 1, dayRestaurant 2, dayRestaurant 3]
        (fun i => i == 2) { weekday := .monday, hhmm := "12:00" } 60).totalUpdated = 2 := by
  refine ⟨?_, rfl, rfl, rfl, rfl⟩
  intro page fails t now
  induction page with
  | nil => exact ⟨rfl, rfl, rfl⟩
  | cons r rest ih =>
    obtain ⟨ihw, ihl, ihe⟩ := ih
    by_cases hch : r.isOpen = EnhancedCronService.shouldRestaurantBeOpenAtTime r t
    · simp [EnhancedCronService.updateAllRestaurantStatusesPage,
        EnhancedCronService.updateRestaurantStatus, hch, ihw, ihl, ihe]
    · by_cases hf : fails r.id = true
      · simp [EnhancedCronService.updateAllRestaurantStatusesPage,
          EnhancedCronService.updateRestaurantStatus, hch, hf, ihw, ihl, ihe,
          Ne.symm hch]
      · simp [EnhancedCronService.updateAllRestaurantStatusesPage,
          EnhancedCronService.updateRestaurantStatus, hch, hf, ihw, ihl, ihe,
          Ne.symm hch]

/-- Witness for C9: the page equations instantiated on the concrete
A, B, C page with B's write failing. -/
theorem claim_C9_page_failure_isolation_witness :
    (EnhancedCronService.updateAllRestaurantStatusesPage
        [dayRestaurant 1, dayRestaurant 2, dayRestaurant 3]
        (fun i => i == 2) { weekday := .monday, hhmm := "12:00" } 60).writes =
      ([dayRestaurant 1, dayRestaurant 2, dayRestaurant 3].filter fun r =>
        (r.isOpen != EnhancedCronService.shouldRestaurantBeOpenAtTime r
          { weekday := .monday, hhmm := "12:00" }) && !(r.id == 2)).map
        (fun r => { r with
          isOpen := EnhancedCronService.shouldRestaurantBeOpenAtTime r
            { weekday := .monday, hhmm := "12:00" },
          lastStatusUpdate := some 60 }) :=
  (claim_C9_page_failure_isolation.1 [dayRestaurant 1, dayRestaurant 2, dayRestaurant 3]
    (fun i => i == 2) { weekday := .monday, hhmm := "12:00" } 60).1

/-- C10: `HandleWebhook` sets the order's status to the fixed Porter
status mapping whenever the mapped value differs from the current one,
without consulting the order transition table and without appending an
order log (the updated record keeps the old `orderLogs`); when the
mapped value is empty or already current the order store is untouched;
and in particular the table itself forbids `delivered → cancelled`, yet
the webhook performs it. -/
theorem claim_C10_webhook_bypasses_transition_table :
    (∀ (st : PorterState) (payload : PorterWebhookPayload) (now : Nat)
        (pd : PorterDelivery) (order : Order),
      st.getByPorterOrderID payload.orderID = some pd →
      st.orders pd.orderId = some order →
      PorterService.porterStatusToOrderStatus payload.status ≠ "" →
      order.orderStatus ≠ PorterService.porterStatusToOrderStatus payload.status →
      (PorterService.handleWebhook st payload now).1 = .ok () ∧
      (PorterService.handleWebhook st payload now).2.orders order.id =
        some { order with
          orderStatus := PorterService.porterStatusToOrderStatus payload.status }) ∧
    (∀ (st : PorterState) (payload : PorterWebhookPayload) (now : Nat)
        (pd : PorterDelivery) (order : Order),
      st.getByPorterOrderID payload.orderID = some pd →
      st.orders pd.orderId = some order →
      (PorterService.porterStatusToOrderStatus payload.status = "" ∨
       order.orderStatus = PorterService.porterStatusToOrderStatus payload.status) →
      (PorterService.handleWebhook st payload now).2.orders = st.orders) ∧
    OrderService.isValidStatusTransition "delivered" "cancelled" = false := by
  refine ⟨?_, ?_, by decide⟩
  · intro st payload now pd order hpd horder hm hne
    constructor
    · simp [PorterService.handleWebhook, PorterState.updateRow, hpd, horder, hm, hne]
    · simp [PorterService.handleWebhook, PorterState.updateRow, PorterState.updateOrder,
        hpd, horder, hm, hne]
  · intro st payload now pd order hpd horder hsame
    rcases hsame with hs | hs <;>
      simp [PorterService.handleWebhook, PorterState.updateRow, hpd, horder, hs]

/-- Order 1 already delivered (a terminal status in the table). -/
def orderDelivered : Order :=
  { id := 1, userId := 2, restaurantId := 3, orderStatus := "delivered", orderLogs := [] }

/-- State where order 1 is delivered and "P1" is its active row. -/
def stDelivered : PorterState :=
  { rows := [pdC7], orders := fun i => if i = 1 then some orderDelivered else none }

/-- Witness for C10: an `order_cancel` webhook moves the delivered order
1 to "cancelled" — a transition the table forbids — appending no log. -/
theorem claim_C10_webhook_bypasses_transition_table_witness :
    OrderService.isValidStatusTransition "delivered" "cancelled" = false ∧
    (PorterService.handleWebhook stDelivered payloadCancel 9).1 = .ok () ∧
    (PorterService.handleWebhook stDelivered payloadCancel 9).2.orders 1 =
      some { orderDelivered with orderStatus := "cancelled" } :=
  ⟨by decide,
    (claim_C10_webhook_bypasses_transition_table.1 stDelivered payloadCancel 9 pdC7
      orderDelivered rfl rfl (by decide) (by decide)).1,
    (claim_C10_webhook_bypasses_transition_table.1 stDelivered payloadCancel 9 pdC7
      orderDelivered rfl rfl (by decide) (by decide)).2⟩
